import Mathlib

/-!
Verification development for the webOS Starfish media-feed controller
(`CDVDVideoCodecStarfish` in DVDVideoCodecStarfish.cpp and `CAESinkStarfish`
in AESinkStarfish.cpp).  The C++ is shallowly embedded: member state becomes
explicit record passing, the external `StarfishMediaAPIs` engine is an oracle
whose per-call answers (Feed status strings, polled playtimes, Load results)
are passed in as arguments, and the effects sent to the engine (Seek, Feed)
are returned as counts so that temporal properties can be stated over runs.
-/

namespace Starfish

/-- Byte strings as lists of naturals; models the C++ `std::string` status
values returned by `StarfishMediaAPIs::Feed`. -/
abbrev Status := List Nat

/-- Helper for substring search: does `p` occur at the very start of `c`? -/
def startsWithL : Status → Status → Bool
  | [], _ => true
  | _ :: _, [] => false
  | p :: ps, c :: cs => (p == c) && startsWithL ps cs

/-- Models `text.find(pat) != std::string::npos`: `pat` occurs as a
contiguous substring of `text`. -/
def hasSubstr (text pat : Status) : Bool :=
  startsWithL pat text ||
    match text with
    | [] => false
    | _ :: ts => hasSubstr ts pat

/-- The acceptance token, the bytes of the literal written between quotes in
`result.find(std::string("Ok"))`. -/
def okTok : Status := [79, 107]

/-- The transient-backpressure token, the bytes of `"BufferFull"`. -/
def bufferFullTok : Status := [66, 117, 102, 102, 101, 114, 70, 117, 108, 108]

/-- Bytes of `"Err"`, a representative unrecognized status used as a test
input; it contains neither `okTok` nor `bufferFullTok`. -/
def errStatus : Status := [69, 114, 114]

/-! ## Video codec data model (DVDVideoCodecStarfish.cpp) -/

/-- The `STARFISH_STATES` enum of the video codec. -/
inductive StarfishState
  | reset
  | flushed
  | running
deriving DecidableEq, Repr

/-- The `CDVDVideoCodec::VCReturn` values the embedded functions produce. -/
inductive VCReturn
  | vcNone
  | vcBuffer
  | vcPicture
deriving DecidableEq, Repr

/-- `DVD_NOPTS_VALUE` (`-1LL << 52`) as a rational, the sentinel for an
invalid presentation timestamp. -/
def DVD_NOPTS_VALUE : ℚ := -(2 ^ 52)

/-- `DVD_MSEC_TO_TIME(msec) = msec * DVD_TIME_BASE / 1000` with
`DVD_TIME_BASE = 1000000`. -/
def DVD_MSEC_TO_TIME (msec : ℚ) : ℚ := msec * (1000000 / 1000)

/-- The fields of a `DemuxPacket` that `CDVDVideoCodecStarfish::AddData`
reads: whether `pData` is non-null, `iSize`, and the timestamps. -/
structure DemuxPacket where
  hasData : Bool
  iSize : Nat
  pts : ℚ
  dts : ℚ
deriving DecidableEq, Repr

/-- The member state of `CDVDVideoCodecStarfish` that the embedded
operations read and write: `m_opened`, `m_state`, `m_current_playtime`,
`m_videobuffer.pts`, `m_hints.ptsinvalid` and whether `m_bitstream`
(the bitstream normalizer) is present. -/
structure VideoState where
  opened : Bool
  st : StarfishState
  currentPlaytime : Int
  videobufferPts : ℚ
  ptsinvalid : Bool
  hasBitstream : Bool
deriving DecidableEq, Repr

/-- The Feed-status decision of `CDVDVideoCodecStarfish::AddData`
(lines 360-371): look for `"Ok"`; if absent look for `"BufferFull"` and
return `false` when found; any other status is logged and the function
returns `true`. -/
def videoFeedDecision (status : Status) : Bool :=
  if hasSubstr status okTok then true
  else if hasSubstr status bufferFullTok then false
  else true

/-- Result of one embedded `AddData` call: the C++ return value, the
updated member state, and how many `Seek` and `Feed` commands were issued
to the engine during the call. -/
structure AddDataResult where
  ret : Bool
  state : VideoState
  seeks : Nat
  feeds : Nat
deriving DecidableEq, Repr

/-- The timestamp `AddData` works with: the packet's `pts`, replaced by
`DVD_NOPTS_VALUE` when `m_hints.ptsinvalid` is set (lines 324-325). -/
def effectivePts (s : VideoState) (pkt : DemuxPacket) : ℚ :=
  if s.ptsinvalid then DVD_NOPTS_VALUE else pkt.pts

/-- Embedding of `CDVDVideoCodecStarfish::AddData`.  Oracle arguments:
`canStart` is what `m_bitstream->CanStartDecode()` returns after
`Convert` for this buffer, `convHasData`/`convSize` are the converter's
output buffer and size, and `status` is the engine's answer to `Feed`. -/
def addData (s : VideoState) (pkt : DemuxPacket) (canStart : Bool)
    (convHasData : Bool) (convSize : Nat) (status : Status) : AddDataResult :=
  if s.opened = false then ⟨false, s, 0, 0⟩
  else
    let pts : ℚ := effectivePts s pkt
    if pkt.hasData ∧ s.hasBitstream ∧ s.st = StarfishState.flushed ∧ canStart = false then
      ⟨true, s, 0, 0⟩
    else
      let pData : Bool := if pkt.hasData ∧ s.hasBitstream then convHasData else pkt.hasData
      let size : Nat := if pkt.hasData ∧ s.hasBitstream then convSize else pkt.iSize
      let seeks : Nat := if s.st = StarfishState.flushed ∧ 0 < pts then 1 else 0
      let s2 : VideoState :=
        if s.st = StarfishState.flushed then { s with st := StarfishState.running } else s
      if pData ∧ size ≠ 0 then
        ⟨videoFeedDecision status, s2, seeks, 1⟩
      else
        ⟨true, s2, seeks, 0⟩

/-- Embedding of `CDVDVideoCodecStarfish::Reset`: flush the engine, set the
state back to `STARFISH_STATE_FLUSHED` and invalidate the cached picture
timestamp.  The second component counts engine `flush` commands. -/
def resetCodec (s : VideoState) : VideoState × Nat :=
  if s.opened = false then (s, 0)
  else ({ s with st := StarfishState.flushed, videobufferPts := DVD_NOPTS_VALUE }, 1)

/-- One `AddData` call's inputs: the packet plus the per-call oracle
answers of the bitstream converter and the engine. -/
structure AddDataCall where
  pkt : DemuxPacket
  canStart : Bool
  convHasData : Bool
  convSize : Nat
  status : Status
deriving DecidableEq, Repr

/-- Run a sequence of `AddData` calls from a starting state, returning the
final state and the total number of `Seek` commands issued. -/
def runAddData (s : VideoState) : List AddDataCall → VideoState × Nat
  | [] => (s, 0)
  | c :: cs =>
    let r := addData s c.pkt c.canStart c.convHasData c.convSize c.status
    let rest := runAddData r.state cs
    (rest.1, r.seeks + rest.2)

/-- Embedding of `CDVDVideoCodecStarfish::GetPicture`.  `polled` is the
value `m_starfishMediaAPI->getCurrentPlaytime()` returns during this call.
The result carries the `VCReturn`, the updated state, and the PTS of the
emitted picture when one is emitted. -/
def getPicture (s : VideoState) (polled : Int) : VCReturn × VideoState × Option ℚ :=
  if s.opened = false then (VCReturn.vcNone, s, none)
  else if s.st = StarfishState.flushed then (VCReturn.vcBuffer, s, none)
  else if polled = s.currentPlaytime then (VCReturn.vcBuffer, s, none)
  else
    (VCReturn.vcPicture, { s with currentPlaytime := polled },
      some (DVD_MSEC_TO_TIME ((polled : ℚ) / 1000000)))

/-- Run `GetPicture` over a sequence of polled playtime values, counting
emitted pictures. -/
def runGetPicture (s : VideoState) : List Int → Nat
  | [] => 0
  | p :: ps =>
    let r := getPicture s p
    (if r.1 = VCReturn.vcPicture then 1 else 0) + runGetPicture r.2.1 ps

/-- Number of positions at which a polled-value sequence differs from the
previous value (with `cur` the value before the first element). -/
def countChanges (cur : Int) : List Int → Nat
  | [] => 0
  | p :: ps => (if p = cur then 0 else 1) + countChanges p ps

/-! ## Open / Dispose and the process-wide instance guard -/

/-- The inputs `CDVDVideoCodecStarfish::Open` branches on: the stream
hints' dimensions, the Starfish settings toggle, whether the codec id is
one of the supported cases of the `switch`, and the engine's answer to
`Load`. -/
structure OpenInput where
  width : Nat
  height : Nat
  useStarfish : Bool
  codecSupported : Bool
  loadOk : Bool
deriving DecidableEq, Repr

/-- Result of an embedded `Open`: the C++ return value, the value of the
process-wide `m_InstanceGuard` after the call, the updated member state and
whether `Load` was invoked on the engine. -/
structure OpenResult where
  ok : Bool
  guard : Bool
  state : VideoState
  loadCalled : Bool
deriving DecidableEq, Repr

/-- Embedding of `CDVDVideoCodecStarfish::Open`.  `guard` is the value of
the static `m_InstanceGuard` before the call; `m_InstanceGuard.exchange(true)`
returning `true` makes `Open` fail immediately, every later failure jumps to
the `FAIL` label which executes `m_InstanceGuard.exchange(false)`. -/
def openCodec (guard : Bool) (s : VideoState) (inp : OpenInput) : OpenResult :=
  let s0 : VideoState := { s with opened := false }
  if guard then ⟨false, true, s0, false⟩
  else if inp.width = 0 ∨ inp.height = 0 then ⟨false, false, s0, false⟩
  else if inp.useStarfish = false then ⟨false, false, s0, false⟩
  else if inp.codecSupported = false then ⟨false, false, s0, false⟩
  else if inp.loadOk = false then ⟨false, false, s0, true⟩
  else ⟨true, true, { s0 with opened := true }, true⟩

/-- Embedding of `CDVDVideoCodecStarfish::Dispose`: a no-op unless
`m_opened`; otherwise clears `m_opened`, unloads, and releases the
instance guard.  Returns the guard value after the call and the state. -/
def dispose (guard : Bool) (s : VideoState) : Bool × VideoState :=
  if s.opened then (false, { s with opened := false }) else (guard, s)

/-! ## Audio sink data model (AESinkStarfish.cpp) -/

/-- The `AEDataFormat` values relevant to the sink: `AE_FMT_RAW` plus a
sample of the PCM formats the commented-out enumeration would offer. -/
inductive AEDataFormat
  | raw
  | u8
  | s16le
  | s32le
  | flt
  | dbl
deriving DecidableEq, Repr

/-- `CAEStreamInfo` stream types the sink's `switch` distinguishes. -/
inductive AEStreamType
  | ac3
  | eac3
  | trueHd
  | dtsHd
  | mp3
deriving DecidableEq, Repr

/-- The fields of `AEAudioFormat` the sink reads: `m_dataFormat`,
`m_streamInfo.m_type`, `m_streamInfo.GetDuration()` (milliseconds, a
double, here a rational), `m_sampleRate`, the channel count of
`m_channelLayout`, and `m_frameSize`. -/
structure AEAudioFormat where
  dataFormat : AEDataFormat
  streamType : AEStreamType
  streamDurationMs : ℚ
  sampleRate : Nat
  channelCount : Nat
  frameSize : Nat
deriving DecidableEq, Repr

/-- Truncation toward zero of a rational, the effect of
`static_cast<int64_t>` on a double. -/
def ratTrunc (q : ℚ) : Int := Int.tdiv q.num q.den

/-- The `frameTime` computation of `CAESinkStarfish::AddPackets`
(lines 215-219), in nanoseconds: for RAW, the compressed-frame duration
times 1e6; otherwise `1000000000 * frames / m_sampleRate` evaluated in
32-bit unsigned arithmetic (`int * unsigned int`), hence the `% 2 ^ 32`. -/
def audioFrameTime (fmt : AEAudioFormat) (frames : Nat) : Int :=
  if fmt.dataFormat = AEDataFormat.raw then ratTrunc (fmt.streamDurationMs * 1000000)
  else ((1000000000 * frames) % 2 ^ 32) / fmt.sampleRate

/-- The member state of `CAESinkStarfish` updated across calls: `m_pts`,
`m_delay` and `m_playtime` (all `int64_t`). -/
structure AudioState where
  pts : Int
  delay : Int
  playtime : Int
deriving DecidableEq, Repr

/-- The Feed/retry loop of `CAESinkStarfish::AddPackets` (lines 226-231),
driven by the oracle list of successive engine status answers: feed once,
and while the answer contains `"BufferFull"`, sleep and feed again.
Returns the loop-exiting status together with the number of `Feed` calls
and the number of sleeps performed. -/
def feedLoop : List Status → Status × Nat × Nat
  | [] => ([], 0, 0)
  | st :: rest =>
    if hasSubstr st bufferFullTok then
      let r := feedLoop rest
      (r.1, r.2.1 + 1, r.2.2 + 1)
    else (st, 1, 0)

/-- Result of one embedded `AddPackets` call: the returned frame count,
the updated member state, the number of `Feed` calls issued, and the
duration (µs) of each `usleep` performed between retries. -/
structure AddPacketsResult where
  returned : Nat
  state : AudioState
  feedCount : Nat
  sleeps : List Int
deriving DecidableEq, Repr

/-- Embedding of `CAESinkStarfish::AddPackets`: compute `frameTime`,
advance `m_pts` by it unless `frames == 1024`, then run the Feed/retry
loop with `usleep(frameTime / 1000)` between attempts; return `frames`
when the final status contains `"Ok"` and `0` otherwise. -/
def addPackets (fmt : AEAudioFormat) (s : AudioState) (frames : Nat)
    (statuses : List Status) : AddPacketsResult :=
  let frameTime := audioFrameTime fmt frames
  let s1 : AudioState := { s with pts := if frames ≠ 1024 then s.pts + frameTime else s.pts }
  let fl := feedLoop statuses
  { returned := if hasSubstr fl.1 okTok then frames else 0
    state := s1
    feedCount := fl.2.1
    sleeps := List.replicate fl.2.2 (frameTime / 1000) }

/-- The engine callback events distinguished by
`CAESinkStarfish::PlayerCallback`. -/
inductive PFEvent
  | frameReady (numValue : Int)
  | loadCompleted
  | otherEvent (eventType : Int) (numValue : Int)
deriving DecidableEq, Repr

/-- Embedding of `CAESinkStarfish::PlayerCallback` (lines 271-290): on
`FRAMEREADY` record the reported playtime and recompute
`m_delay = m_pts - numValue`; on `LOADCOMPLETED` issue `Play` (the Bool
output); anything else is only logged. -/
def audioCallback (s : AudioState) : PFEvent → AudioState × Bool
  | PFEvent.frameReady n => ({ s with playtime := n, delay := s.pts - n }, false)
  | PFEvent.loadCompleted => (s, true)
  | PFEvent.otherEvent _ _ => (s, false)

/-- Result of the embedded sink `Initialize`: the C++ return value,
whether the PCM configuration branch (the `else` of
`if (m_format.m_dataFormat == AE_FMT_RAW)`, lines 144-161) was entered,
and whether `Load` was invoked on the engine. -/
structure InitResult where
  ok : Bool
  pcmBranch : Bool
  loadCalled : Bool
deriving DecidableEq, Repr

/-- Embedding of `CAESinkStarfish::Initialize`: reject any non-RAW data
format up front (line 90); inside the RAW branch, reject stream types
other than AC3 and E-AC3 (the `default: return false`); the PCM branch,
including its channel-count `switch` whose `default` also fails, sits in
the `else` of the RAW test; finally call `Load`, whose oracle answer
`loadOk` decides the result. -/
def initSink (fmt : AEAudioFormat) (loadOk : Bool) : InitResult :=
  if fmt.dataFormat ≠ AEDataFormat.raw then ⟨false, false, false⟩
  else
    if fmt.dataFormat = AEDataFormat.raw then
      match fmt.streamType with
      | AEStreamType.ac3 => ⟨loadOk, false, true⟩
      | AEStreamType.eac3 => ⟨loadOk, false, true⟩
      | _ => ⟨false, false, false⟩
    else
      if fmt.channelCount = 1 ∨ fmt.channelCount = 2 ∨ fmt.channelCount = 6 then
        ⟨loadOk, true, true⟩
      else ⟨false, true, false⟩

/-! ## Reconfigure and the stream-hints equivalence -/

/-- The stream-descriptor fields relevant to `Reconfigure`: the stream id
and extradata that the comparison mask removes, plus representative
identity fields (`codec`, `width`, `height`, `fpsrate`, `fpsscale`) that
`COMPARE_ALL` keeps. -/
structure StreamHints where
  uniqueId : Int
  extradata : List Nat
  codecId : Nat
  width : Nat
  height : Nat
  fpsrate : Nat
  fpsscale : Nat
deriving DecidableEq, Repr

/-- Modelled from the spec: `CDVDStreamInfo::Equal` is not among the
sources, only its call site
`m_hints.Equal(hints, COMPARE_ALL & ~(COMPARE_ID | COMPARE_EXTRADATA))`
is.  Per the spec it is an equivalence on descriptors that ignores the
stream id and the extradata and compares every remaining field. -/
def hintsEqualNoIdExtra (a b : StreamHints) : Bool :=
  a.codecId == b.codecId && a.width == b.width && a.height == b.height &&
    a.fpsrate == b.fpsrate && a.fpsscale == b.fpsscale

/-- The codec state `Reconfigure` can read or write: the stored hints and
the session fields it must leave untouched. -/
structure ReconfState where
  hints : StreamHints
  st : StarfishState
  opened : Bool
deriving DecidableEq, Repr

/-- Embedding of `CDVDVideoCodecStarfish::Reconfigure` (lines 394-405):
when the new hints equal the stored ones under the id/extradata-ignoring
equivalence, store them and return `true`; otherwise return `false` and
change nothing. -/
def reconfigure (s : ReconfState) (newHints : StreamHints) : Bool × ReconfState :=
  if hintsEqualNoIdExtra s.hints newHints then (true, { s with hints := newHints })
  else (false, s)

/-! ## Concrete example values used by the witnesses -/

/-- An opened video codec in the Running state, no bitstream converter,
playtime marker at 0, valid timestamps. -/
def vsRunning : VideoState :=
  ⟨true, StarfishState.running, 0, 0, false, false⟩

/-- An opened video codec in the Flushed state with a bitstream
converter attached. -/
def vsFlushedBs : VideoState :=
  ⟨true, StarfishState.flushed, 0, 0, false, true⟩

/-- An opened video codec in the Flushed state without a bitstream
converter. -/
def vsFlushed : VideoState :=
  ⟨true, StarfishState.flushed, 0, 0, false, false⟩

/-- A demux packet with data, a positive timestamp and a nonzero size. -/
def pktEx : DemuxPacket := ⟨true, 100, 40000, 40000⟩

/-- An example RAW/AC3 audio format: 32 ms compressed-frame duration,
48 kHz, stereo stream, frame size 1. -/
def rawFmtEx : AEAudioFormat :=
  ⟨AEDataFormat.raw, AEStreamType.ac3, 32, 48000, 2, 1⟩

/-! ## Shared lemmas -/

/-- Running the audio Feed/retry loop on a script of backpressure
statuses followed by one non-backpressure status: one Feed per script
entry, one sleep per backpressure entry, and the final entry is the
loop's result. -/
theorem feedLoop_script (pre : List Status) (last : Status)
    (hpre : ∀ st ∈ pre, hasSubstr st bufferFullTok = true)
    (hlast : hasSubstr last bufferFullTok = false) :
    feedLoop (pre ++ [last]) = (last, pre.length + 1, pre.length) := by
  induction pre with
  | nil => simp [feedLoop, hlast]
  | cons a as ih =>
    have ha : hasSubstr a bufferFullTok = true := hpre a (by simp)
    have has : ∀ st ∈ as, hasSubstr st bufferFullTok = true := by
      intro st hs
      exact hpre st (by simp [hs])
    simp [feedLoop, ha, ih has]

/-- Truncation of an integer-valued rational is that integer. -/
theorem ratTrunc_intCast (n : Int) : ratTrunc (n : ℚ) = n := by
  simp [ratTrunc, Rat.num_intCast, Rat.den_intCast, Int.tdiv_one]

/-- The buffer duration of the example RAW format is 32 ms = 32000000 ns,
independently of the frame count. -/
theorem audioFrameTime_rawFmtEx (frames : Nat) :
    audioFrameTime rawFmtEx frames = 32000000 := by
  have h : (rawFmtEx.streamDurationMs * 1000000 : ℚ) = ((32000000 : Int) : ℚ) := by
    norm_num [rawFmtEx]
  unfold audioFrameTime
  rw [if_pos (show rawFmtEx.dataFormat = AEDataFormat.raw from rfl), h, ratTrunc_intCast]

/-- With the guard free, `Open` leaves the guard held exactly when it
returns success: every failure path after acquisition runs the `FAIL`
label and releases it. -/
theorem openCodec_guard_eq_ok (s : VideoState) (inp : OpenInput) :
    (openCodec false s inp).guard = (openCodec false s inp).ok := by
  by_cases h1 : inp.width = 0 ∨ inp.height = 0 <;>
    by_cases h2 : inp.useStarfish = false <;>
      by_cases h3 : inp.codecSupported = false <;>
        by_cases h4 : inp.loadOk = false <;>
          simp [openCodec, h1, h2, h3, h4]

/-- With the guard free, `Open` sets `m_opened` exactly when it returns
success. -/
theorem openCodec_opened_eq_ok (s : VideoState) (inp : OpenInput) :
    (openCodec false s inp).state.opened = (openCodec false s inp).ok := by
  by_cases h1 : inp.width = 0 ∨ inp.height = 0 <;>
    by_cases h2 : inp.useStarfish = false <;>
      by_cases h3 : inp.codecSupported = false <;>
        by_cases h4 : inp.loadOk = false <;>
          simp [openCodec, h1, h2, h3, h4]

/-- The success of `Open` with a free guard depends only on the inputs,
not on the previous member state. -/
theorem openCodec_ok_ignores_state (s s' : VideoState) (inp : OpenInput) :
    (openCodec false s inp).ok = (openCodec false s' inp).ok := by
  by_cases h1 : inp.width = 0 ∨ inp.height = 0 <;>
    by_cases h2 : inp.useStarfish = false <;>
      by_cases h3 : inp.codecSupported = false <;>
        by_cases h4 : inp.loadOk = false <;>
          simp [openCodec, h1, h2, h3, h4]

/-- Every AddData call either leaves the session state unchanged and
issues no Seek, or it runs from Flushed, ends Running and issues at most
one Seek. -/
theorem addData_flushed_cases (s : VideoState) (pkt : DemuxPacket) (c cd : Bool)
    (n : Nat) (st : Status) :
    ((addData s pkt c cd n st).state.st = s.st ∧ (addData s pkt c cd n st).seeks = 0) ∨
    (s.st = StarfishState.flushed ∧
      (addData s pkt c cd n st).state.st = StarfishState.running ∧
      (addData s pkt c cd n st).seeks ≤ 1) := by
  simp only [addData]
  split_ifs
  all_goals simp_all

/-- A Seek inside AddData is issued only from the Flushed state, only for
a positive effective PTS, and the call then moves the state to Running. -/
theorem addData_seek_facts (s : VideoState) (pkt : DemuxPacket) (c cd : Bool)
    (n : Nat) (st : Status) :
    1 ≤ (addData s pkt c cd n st).seeks →
      (addData s pkt c cd n st).seeks = 1 ∧ s.st = StarfishState.flushed ∧
      0 < effectivePts s pkt ∧
      (addData s pkt c cd n st).state.st = StarfishState.running := by
  simp only [addData]
  split_ifs
  all_goals simp_all

/-- Over any run of AddData calls, the total number of Seeks is at most
one, and it is zero when the run does not start in the Flushed state. -/
theorem runAddData_seeks_bound (cs : List AddDataCall) :
    ∀ s : VideoState,
      (runAddData s cs).2 ≤ 1 ∧
      (s.st ≠ StarfishState.flushed → (runAddData s cs).2 = 0) := by
  induction cs with
  | nil =>
    intro s
    simp [runAddData]
  | cons c cs ih =>
    intro s
    have hrun : runAddData s (c :: cs) =
        ((runAddData (addData s c.pkt c.canStart c.convHasData c.convSize c.status).state
            cs).1,
          (addData s c.pkt c.canStart c.convHasData c.convSize c.status).seeks +
            (runAddData (addData s c.pkt c.canStart c.convHasData c.convSize
              c.status).state cs).2) := rfl
    rcases addData_flushed_cases s c.pkt c.canStart c.convHasData c.convSize c.status with
      ⟨hst, hz⟩ | ⟨hf, hrn, hle⟩
    · constructor
      · rw [hrun]
        simp only [hz, Nat.zero_add]
        exact (ih _).1
      · intro hne
        rw [hrun]
        simp only [hz, Nat.zero_add]
        exact (ih _).2 (by rw [hst]; exact hne)
    · have hrest : (runAddData (addData s c.pkt c.canStart c.convHasData c.convSize
          c.status).state cs).2 = 0 :=
        (ih _).2 (by rw [hrn]; intro hcon; cases hcon)
      constructor
      · rw [hrun]
        simp only [hrest, Nat.add_zero]
        exact hle
      · intro hne
        exact absurd hf hne

/-- One unfolding step of `runGetPicture`. -/
theorem runGetPicture_cons (s : VideoState) (p : Int) (ps : List Int) :
    runGetPicture s (p :: ps) =
      (if (getPicture s p).1 = VCReturn.vcPicture then 1 else 0) +
        runGetPicture (getPicture s p).2.1 ps := rfl

/-- Running GetPicture in the opened Running state over a sequence of
polled playtimes emits exactly one picture per change of the polled
value. -/
theorem runGetPicture_eq_countChanges (ps : List Int) :
    ∀ s : VideoState, s.opened = true → s.st = StarfishState.running →
      runGetPicture s ps = countChanges s.currentPlaytime ps := by
  induction ps with
  | nil =>
    intro s _ _
    simp [runGetPicture, countChanges]
  | cons p ps ih =>
    intro s ho hr
    by_cases he : p = s.currentPlaytime
    · have h1 : getPicture s p = (VCReturn.vcBuffer, s, none) := by
        simp [getPicture, ho, hr, he]
      have h2 : countChanges s.currentPlaytime (p :: ps) = countChanges p ps := by
        simp [countChanges, he]
      rw [runGetPicture_cons, h1, h2]
      simp only [he]
      simpa using ih s ho hr
    · have h1 : getPicture s p =
          (VCReturn.vcPicture, { s with currentPlaytime := p },
            some (DVD_MSEC_TO_TIME ((p : ℚ) / 1000000))) := by
        simp [getPicture, ho, hr, he]
      have h3 := ih { s with currentPlaytime := p } (by simpa using ho) (by simpa using hr)
      rw [runGetPicture_cons, h1]
      simp [countChanges, he, h3]

/-- In a monotone polled-value sequence, the number of value changes is
bounded by the number of distinct values. -/
theorem countChanges_le_dedup (ps : List Int) :
    ∀ cur : Int, ps.Pairwise (· ≤ ·) → countChanges cur ps ≤ ps.dedup.length := by
  induction ps with
  | nil =>
    intro cur _
    simp [countChanges]
  | cons p rest ih =>
    intro cur hp
    have hle : ∀ x ∈ rest, p ≤ x := (List.pairwise_cons.mp hp).1
    have hrest : rest.Pairwise (· ≤ ·) := (List.pairwise_cons.mp hp).2
    by_cases hmem : p ∈ rest
    · obtain ⟨r0, rest', hr⟩ : ∃ r0 rest', rest = r0 :: rest' := by
        cases rest with
        | nil => simp at hmem
        | cons a b => exact ⟨a, b, rfl⟩
      subst hr
      have hr0 : r0 = p := by
        rcases List.mem_cons.mp hmem with h | h
        · exact h.symm
        · have h1 : p ≤ r0 := hle r0 (by simp)
          have h2 : r0 ≤ p := (List.pairwise_cons.mp hrest).1 p h
          omega
      subst hr0
      rw [List.dedup_cons_of_mem hmem]
      have hcc : countChanges cur (r0 :: r0 :: rest') = countChanges cur (r0 :: rest') := by
        simp [countChanges]
      rw [hcc]
      exact ih cur hrest
    · rw [List.dedup_cons_of_not_mem hmem]
      have hstep : countChanges cur (p :: rest) =
          (if p = cur then 0 else 1) + countChanges p rest := rfl
      have h1 : countChanges p rest ≤ rest.dedup.length := ih p hrest
      have h2 : (if p = cur then 0 else 1) ≤ 1 := by
        split
        · omega
        · omega
      rw [hstep, List.length_cons]
      omega

/-! ## Claim theorems -/

/-- C1: between a Reset (or a fresh Flushed session) and the next Reset,
the video codec issues at most one Seek across any sequence of AddData
calls; a Seek happens only on a call made in the Flushed state whose
effective PTS is positive (hence valid), and that call transitions the
state from Flushed to Running; Reset of an opened codec re-enters the
Flushed state. -/
theorem C1_one_seek_per_session :
    (∀ (s : VideoState) (cs : List AddDataCall),
      s.st = StarfishState.flushed → (runAddData s cs).2 ≤ 1) ∧
    (∀ (s : VideoState) (pkt : DemuxPacket) (c cd : Bool) (n : Nat) (st : Status),
      1 ≤ (addData s pkt c cd n st).seeks →
        (addData s pkt c cd n st).seeks = 1 ∧ s.st = StarfishState.flushed ∧
        0 < effectivePts s pkt ∧
        (addData s pkt c cd n st).state.st = StarfishState.running) ∧
    (∀ s : VideoState, s.opened = true →
      ((resetCodec s).1).st = StarfishState.flushed) := by
  refine ⟨?_, ?_, ?_⟩
  · intro s cs _
    exact (runAddData_seeks_bound cs s).1
  · intro s pkt c cd n st h
    exact addData_seek_facts s pkt c cd n st h
  · intro s ho
    simp [resetCodec, ho]

/-- Witness for C1: a Flushed session fed two data packets with positive
PTS issues exactly one Seek in total; the single-call facts hold at the
first of those calls; Reset of the Running codec returns to Flushed. -/
theorem C1_one_seek_per_session_witness :
    (runAddData vsFlushed
      [⟨pktEx, true, true, 100, okTok⟩, ⟨pktEx, true, true, 100, okTok⟩]).2 ≤ 1 ∧
    ((addData vsFlushed pktEx true true 100 okTok).seeks = 1 ∧
      vsFlushed.st = StarfishState.flushed ∧ 0 < effectivePts vsFlushed pktEx ∧
      (addData vsFlushed pktEx true true 100 okTok).state.st = StarfishState.running) ∧
    ((resetCodec vsRunning).1).st = StarfishState.flushed :=
  ⟨C1_one_seek_per_session.1 vsFlushed
      [⟨pktEx, true, true, 100, okTok⟩, ⟨pktEx, true, true, 100, okTok⟩] (by decide),
    C1_one_seek_per_session.2.1 vsFlushed pktEx true true 100 okTok (by decide),
    C1_one_seek_per_session.2.2 vsRunning (by decide)⟩

/-- C2: GetPicture is edge-triggered on the polled playtime: in the
opened Running state an unchanged polled value returns the need-more-data
result with nothing modified, a changed value emits exactly one picture
whose PTS is the engine playtime converted from nanoseconds to DVD time
and advances the last-observed marker, over a run it emits exactly one
picture per value change, for a monotone polled sequence at most one
picture per distinct value, and in the Flushed state it never yields a
picture. -/
theorem C2_edge_triggered :
    (∀ (s : VideoState) (p : Int),
      s.opened = true → s.st = StarfishState.running → p = s.currentPlaytime →
      getPicture s p = (VCReturn.vcBuffer, s, none)) ∧
    (∀ (s : VideoState) (p : Int),
      s.opened = true → s.st = StarfishState.running → p ≠ s.currentPlaytime →
      getPicture s p = (VCReturn.vcPicture, { s with currentPlaytime := p },
        some (DVD_MSEC_TO_TIME ((p : ℚ) / 1000000)))) ∧
    (∀ (s : VideoState) (p : Int), s.st = StarfishState.flushed →
      (getPicture s p).1 ≠ VCReturn.vcPicture) ∧
    (∀ (s : VideoState) (ps : List Int),
      s.opened = true → s.st = StarfishState.running →
      runGetPicture s ps = countChanges s.currentPlaytime ps) ∧
    (∀ (s : VideoState) (ps : List Int),
      s.opened = true → s.st = StarfishState.running → ps.Pairwise (· ≤ ·) →
      runGetPicture s ps ≤ ps.dedup.length) := by
  refine ⟨?_, ?_, ?_, ?_, ?_⟩
  · intro s p ho hr he
    simp [getPicture, ho, hr, he]
  · intro s p ho hr he
    simp [getPicture, ho, hr, he]
  · intro s p hf
    by_cases ho : s.opened = true
    · simp [getPicture, ho, hf]
    · have ho' : s.opened = false := by
        cases h : s.opened
        · rfl
        · exact absurd h ho
      simp [getPicture, ho']
  · intro s ps ho hr
    exact runGetPicture_eq_countChanges ps s ho hr
  · intro s ps ho hr hmono
    rw [runGetPicture_eq_countChanges ps s ho hr]
    exact countChanges_le_dedup ps s.currentPlaytime hmono

/-- Witness for C2 at the Running state with marker 0 and the monotone
polled sequence [0, 5, 5, 7]: unchanged value 0 gives the buffer result,
changed value 5 emits a picture and advances the marker, the Flushed
state yields no picture, and the run emits two pictures, one per change,
bounded by the three distinct values. -/
theorem C2_edge_triggered_witness :
    getPicture vsRunning 0 = (VCReturn.vcBuffer, vsRunning, none) ∧
    getPicture vsRunning 5 = (VCReturn.vcPicture, { vsRunning with currentPlaytime := 5 },
      some (DVD_MSEC_TO_TIME ((5 : ℚ) / 1000000))) ∧
    (getPicture vsFlushed 3).1 ≠ VCReturn.vcPicture ∧
    runGetPicture vsRunning [0, 5, 5, 7] = countChanges vsRunning.currentPlaytime [0, 5, 5, 7] ∧
    runGetPicture vsRunning [0, 5, 5, 7] ≤ ([0, 5, 5, 7] : List Int).dedup.length :=
  ⟨C2_edge_triggered.1 vsRunning 0 (by decide) (by decide) (by decide),
    C2_edge_triggered.2.1 vsRunning 5 (by decide) (by decide) (by decide),
    C2_edge_triggered.2.2.1 vsFlushed 3 (by decide),
    C2_edge_triggered.2.2.2.1 vsRunning [0, 5, 5, 7] (by decide) (by decide),
    C2_edge_triggered.2.2.2.2 vsRunning [0, 5, 5, 7] (by decide) (by decide) (by decide)⟩

/-- C3: the audio sink's AddPackets retries Feed synchronously while the
engine's status contains the backpressure token, sleeping one
buffer-duration (frameTime/1000 microseconds) between attempts; for a
scripted status sequence [backpressure, backpressure, accept] it performs
exactly three Feed calls with two sleeps and returns the full frame count
on the third. -/
theorem C3_backpressure_retry :
    ∀ (fmt : AEAudioFormat) (s : AudioState) (frames : Nat) (bp1 bp2 acc : Status),
      hasSubstr bp1 bufferFullTok = true →
      hasSubstr bp2 bufferFullTok = true →
      hasSubstr acc bufferFullTok = false →
      hasSubstr acc okTok = true →
      (addPackets fmt s frames [bp1, bp2, acc]).feedCount = 3 ∧
      (addPackets fmt s frames [bp1, bp2, acc]).sleeps =
        List.replicate 2 (audioFrameTime fmt frames / 1000) ∧
      (addPackets fmt s frames [bp1, bp2, acc]).returned = frames := by
  intro fmt s frames bp1 bp2 acc h1 h2 h3 h4
  have hfl : feedLoop [bp1, bp2, acc] = (acc, 3, 2) := by
    simp [feedLoop, h1, h2, h3]
  simp [addPackets, hfl, h4]

/-- Witness for C3 at the concrete script [BufferFull, BufferFull, Ok]
with 1536 frames of the example RAW format. -/
theorem C3_backpressure_retry_witness :
    (addPackets rawFmtEx ⟨0, 0, 0⟩ 1536 [bufferFullTok, bufferFullTok, okTok]).feedCount = 3 ∧
    (addPackets rawFmtEx ⟨0, 0, 0⟩ 1536 [bufferFullTok, bufferFullTok, okTok]).sleeps =
      List.replicate 2 (audioFrameTime rawFmtEx 1536 / 1000) ∧
    (addPackets rawFmtEx ⟨0, 0, 0⟩ 1536 [bufferFullTok, bufferFullTok, okTok]).returned = 1536 :=
  C3_backpressure_retry rawFmtEx ⟨0, 0, 0⟩ 1536 bufferFullTok bufferFullTok okTok
    (by decide) (by decide) (by decide) (by decide)

/-- C4: the video single-instance guard is process-wide: Open fails
without calling Load and leaves the guard held when the guard is already
taken; with a free guard, Open leaves the guard held exactly when it
succeeds (so every failure path after acquisition releases it); Dispose
of an opened codec releases the guard; and after a successful Open
followed by Dispose, reopening with the same inputs succeeds. -/
theorem C4_instance_guard :
    (∀ (s : VideoState) (inp : OpenInput),
      (openCodec true s inp).ok = false ∧ (openCodec true s inp).loadCalled = false ∧
        (openCodec true s inp).guard = true) ∧
    (∀ (s : VideoState) (inp : OpenInput),
      (openCodec false s inp).ok = false → (openCodec false s inp).guard = false) ∧
    (∀ (s : VideoState) (inp : OpenInput),
      (openCodec false s inp).ok = true →
        (openCodec false s inp).guard = true ∧
        (openCodec false s inp).state.opened = true) ∧
    (∀ (g : Bool) (s : VideoState), s.opened = true →
      dispose g s = (false, { s with opened := false })) ∧
    (∀ (s : VideoState) (inp : OpenInput),
      (openCodec false s inp).ok = true →
      (openCodec
          (dispose (openCodec false s inp).guard (openCodec false s inp).state).1
          (dispose (openCodec false s inp).guard (openCodec false s inp).state).2
          inp).ok = true) := by
  refine ⟨?_, ?_, ?_, ?_, ?_⟩
  · intro s inp
    simp [openCodec]
  · intro s inp h
    rw [openCodec_guard_eq_ok, h]
  · intro s inp h
    exact ⟨by rw [openCodec_guard_eq_ok, h], by rw [openCodec_opened_eq_ok, h]⟩
  · intro g s h
    simp [dispose, h]
  · intro s inp h
    have hg : (openCodec false s inp).guard = true := by rw [openCodec_guard_eq_ok, h]
    have hop : (openCodec false s inp).state.opened = true := by
      rw [openCodec_opened_eq_ok, h]
    rw [hg]
    simp only [dispose, hop, if_pos]
    rw [openCodec_ok_ignores_state _ s inp, h]

/-- Witness for C4: with 1920x1080, the Starfish setting on, a supported
codec and a succeeding Load, Open with the guard held fails without
loading; Open with a free guard succeeds and holds the guard; Dispose
releases it; the subsequent Open succeeds again. -/
theorem C4_instance_guard_witness :
    ((openCodec true vsFlushed ⟨1920, 1080, true, true, true⟩).ok = false ∧
      (openCodec true vsFlushed ⟨1920, 1080, true, true, true⟩).loadCalled = false ∧
      (openCodec true vsFlushed ⟨1920, 1080, true, true, true⟩).guard = true) ∧
    ((openCodec false vsFlushed ⟨0, 1080, true, true, true⟩).ok = false →
      (openCodec false vsFlushed ⟨0, 1080, true, true, true⟩).guard = false) ∧
    ((openCodec false vsFlushed ⟨1920, 1080, true, true, true⟩).guard = true ∧
      (openCodec false vsFlushed ⟨1920, 1080, true, true, true⟩).state.opened = true) ∧
    (openCodec
        (dispose (openCodec false vsFlushed ⟨1920, 1080, true, true, true⟩).guard
          (openCodec false vsFlushed ⟨1920, 1080, true, true, true⟩).state).1
        (dispose (openCodec false vsFlushed ⟨1920, 1080, true, true, true⟩).guard
          (openCodec false vsFlushed ⟨1920, 1080, true, true, true⟩).state).2
        ⟨1920, 1080, true, true, true⟩).ok = true :=
  ⟨C4_instance_guard.1 vsFlushed ⟨1920, 1080, true, true, true⟩,
    C4_instance_guard.2.1 vsFlushed ⟨0, 1080, true, true, true⟩,
    C4_instance_guard.2.2.1 vsFlushed ⟨1920, 1080, true, true, true⟩ (by decide),
    C4_instance_guard.2.2.2.2 vsFlushed ⟨1920, 1080, true, true, true⟩ (by decide)⟩

/-- C5: while the video codec is Flushed and the bitstream normalizer
does not yet mark the stream decodable, AddData returns without issuing
any Seek or Feed and without changing any state. -/
theorem C5_keyframe_gate :
    ∀ (s : VideoState) (pkt : DemuxPacket) (convHasData : Bool) (convSize : Nat)
      (status : Status),
      s.opened = true → s.st = StarfishState.flushed → s.hasBitstream = true →
      pkt.hasData = true →
      addData s pkt false convHasData convSize status = ⟨true, s, 0, 0⟩ := by
  intro s pkt cd n st ho hs hb hd
  simp [addData, ho, hs, hb, hd]

/-- Witness for C5 at a concrete Flushed state with a bitstream converter
and a data packet. -/
theorem C5_keyframe_gate_witness :
    addData vsFlushedBs pktEx false true 100 okTok = ⟨true, vsFlushedBs, 0, 0⟩ :=
  C5_keyframe_gate vsFlushedBs pktEx true 100 okTok (by decide) (by decide)
    (by decide) (by decide)

/-- C6 counterexample.  The claim says an unrecognized Feed status is a
hard failure after which the buffer is considered unsubmitted so the
caller may retry next cycle, and that only backpressure is handled
internally and never surfaced.  For the video controller the code does
the opposite: on the unrecognized status "Err" `AddData` returns `true`,
i.e. the packet counts as consumed and the caller will never resubmit it,
while on "BufferFull" it returns `false`, surfacing the backpressure to
the caller instead of retrying internally. -/
theorem C6_counterexample :
    (addData vsRunning pktEx true true 100 errStatus).ret = true ∧
    (addData vsRunning pktEx true true 100 bufferFullTok).ret = false := by
  decide

/-- C6 amended: every Feed status (audio and video) is matched by
substring against exactly the two tokens "Ok" and "BufferFull".  Audio:
backpressure is auto-retried internally (one more Feed and one more sleep)
and never surfaced, and any other unrecognized status makes AddPackets
return 0, leaving the buffer unsubmitted for the caller to retry.  Video:
backpressure is not retried internally but surfaced as AddData returning
false so the caller resubmits next cycle, while any other unrecognized
status is only logged and AddData returns true, treating the buffer as
consumed. -/
theorem C6_feed_status_tokens :
    ∀ status : Status,
      (hasSubstr status okTok = true → videoFeedDecision status = true) ∧
      (hasSubstr status okTok = false → hasSubstr status bufferFullTok = true →
        videoFeedDecision status = false ∧
        ∀ rest, feedLoop (status :: rest) =
          ((feedLoop rest).1, (feedLoop rest).2.1 + 1, (feedLoop rest).2.2 + 1)) ∧
      (hasSubstr status okTok = false → hasSubstr status bufferFullTok = false →
        videoFeedDecision status = true ∧ feedLoop [status] = (status, 1, 0) ∧
        ∀ (fmt : AEAudioFormat) (s : AudioState) (frames : Nat),
          (addPackets fmt s frames [status]).returned = 0) := by
  intro status
  refine ⟨fun hok => by simp [videoFeedDecision, hok], fun hok hbf => ⟨?_, ?_⟩,
    fun hok hbf => ⟨?_, ?_, ?_⟩⟩
  · simp [videoFeedDecision, hok, hbf]
  · intro rest
    simp [feedLoop, hbf]
  · simp [videoFeedDecision, hok, hbf]
  · simp [feedLoop, hbf]
  · intro fmt s frames
    simp [addPackets, feedLoop, hbf, hok]

/-- Witness for C6 at the three concrete statuses "Ok", "BufferFull"
and "Err". -/
theorem C6_feed_status_tokens_witness :
    videoFeedDecision okTok = true ∧
    (videoFeedDecision bufferFullTok = false ∧
      ∀ rest, feedLoop (bufferFullTok :: rest) =
        ((feedLoop rest).1, (feedLoop rest).2.1 + 1, (feedLoop rest).2.2 + 1)) ∧
    (videoFeedDecision errStatus = true ∧ feedLoop [errStatus] = (errStatus, 1, 0) ∧
      ∀ (fmt : AEAudioFormat) (s : AudioState) (frames : Nat),
        (addPackets fmt s frames [errStatus]).returned = 0) :=
  ⟨(C6_feed_status_tokens okTok).1 (by decide),
    (C6_feed_status_tokens bufferFullTok).2.1 (by decide) (by decide),
    (C6_feed_status_tokens errStatus).2.2 (by decide) (by decide)⟩

/-- C7: on every FrameReady event the audio sink records the reported
playtime and recomputes the delay estimate as the last submitted PTS
minus the reported playtime, leaving the PTS accumulator unchanged; in
particular pts 500000 against reported playtime 300000 gives a delay of
200000. -/
theorem C7_delay_estimate :
    (∀ (s : AudioState) (n : Int),
      (audioCallback s (PFEvent.frameReady n)).1.delay = s.pts - n ∧
      (audioCallback s (PFEvent.frameReady n)).1.playtime = n ∧
      (audioCallback s (PFEvent.frameReady n)).1.pts = s.pts) ∧
    (audioCallback ⟨500000, 0, 0⟩ (PFEvent.frameReady 300000)).1.delay = 200000 := by
  exact ⟨fun s n => ⟨rfl, rfl, rfl⟩, by decide⟩

/-- C8: Reconfigure returns true exactly when the new hints equal the
stored ones under the equivalence ignoring stream id and extradata, in
which case only the stored hints change; otherwise it returns false and
leaves the state untouched.  Hints differing only in id/extradata are
accepted; hints differing in width are rejected with the state intact. -/
theorem C8_reconfigure :
    ∀ (s : ReconfState) (h : StreamHints),
      ((reconfigure s h).1 = true ↔ hintsEqualNoIdExtra s.hints h = true) ∧
      (hintsEqualNoIdExtra s.hints h = true →
        reconfigure s h = (true, { s with hints := h })) ∧
      (hintsEqualNoIdExtra s.hints h = false → reconfigure s h = (false, s)) ∧
      (s.hints.codecId = h.codecId → s.hints.width = h.width →
        s.hints.height = h.height → s.hints.fpsrate = h.fpsrate →
        s.hints.fpsscale = h.fpsscale → (reconfigure s h).1 = true) ∧
      (s.hints.width ≠ h.width → reconfigure s h = (false, s)) := by
  intro s h
  refine ⟨?_, ?_, ?_, ?_, ?_⟩
  · by_cases he : hintsEqualNoIdExtra s.hints h = true <;>
      simp [reconfigure, he]
  · intro he; simp [reconfigure, he]
  · intro he; simp [reconfigure, he]
  · intro h1 h2 h3 h4 h5
    have he : hintsEqualNoIdExtra s.hints h = true := by
      simp [hintsEqualNoIdExtra, h1, h2, h3, h4, h5]
    simp [reconfigure, he]
  · intro hw
    have he : hintsEqualNoIdExtra s.hints h = false := by
      simp [hintsEqualNoIdExtra]
      intro h1 h2
      exact absurd h2 hw
    simp [reconfigure, he]

/-- Witness for C8: hints differing only in stream id and extradata are
accepted and stored; hints differing in width are rejected and the state
is untouched. -/
theorem C8_reconfigure_witness :
    (reconfigure ⟨⟨1, [7], 27, 1920, 1080, 24000, 1001⟩, StarfishState.running, true⟩
        ⟨2, [9], 27, 1920, 1080, 24000, 1001⟩).1 = true ∧
    reconfigure ⟨⟨1, [7], 27, 1920, 1080, 24000, 1001⟩, StarfishState.running, true⟩
        ⟨1, [7], 27, 1280, 1080, 24000, 1001⟩ =
      (false, ⟨⟨1, [7], 27, 1920, 1080, 24000, 1001⟩, StarfishState.running, true⟩) :=
  ⟨(C8_reconfigure ⟨⟨1, [7], 27, 1920, 1080, 24000, 1001⟩, StarfishState.running, true⟩
        ⟨2, [9], 27, 1920, 1080, 24000, 1001⟩).2.2.2.1 rfl rfl rfl rfl rfl,
    (C8_reconfigure ⟨⟨1, [7], 27, 1920, 1080, 24000, 1001⟩, StarfishState.running, true⟩
        ⟨1, [7], 27, 1280, 1080, 24000, 1001⟩).2.2.2.2 (by decide)⟩

/-- C9: the audio sink's accumulated PTS clock advances by exactly one
buffer-duration on each AddPackets call except when the submitted frame
count equals 1024, and it never decreases when the buffer-duration is
nonnegative. -/
theorem C9_pts_accumulator :
    ∀ (fmt : AEAudioFormat) (s : AudioState) (frames : Nat) (statuses : List Status),
      ((addPackets fmt s frames statuses).state.pts =
        if frames = 1024 then s.pts else s.pts + audioFrameTime fmt frames) ∧
      (0 ≤ audioFrameTime fmt frames →
        s.pts ≤ (addPackets fmt s frames statuses).state.pts) := by
  intro fmt s frames statuses
  constructor
  · by_cases h : frames = 1024 <;> simp [addPackets, h]
  · intro hft
    by_cases h : frames = 1024
    · simp [addPackets, h]
    · simp [addPackets, h]
      omega

/-- Witness for C9: with the example RAW format the clock advances by
32000000 ns for 1536 frames and not at all for 1024 frames. -/
theorem C9_pts_accumulator_witness :
    ((addPackets rawFmtEx ⟨0, 0, 0⟩ 1536 [okTok]).state.pts =
      if (1536 : Nat) = 1024 then (0 : Int) else 0 + audioFrameTime rawFmtEx 1536) ∧
    (0 : Int) ≤ (addPackets rawFmtEx ⟨0, 0, 0⟩ 1536 [okTok]).state.pts ∧
    (addPackets rawFmtEx ⟨0, 0, 0⟩ 1024 [okTok]).state.pts = 0 :=
  ⟨(C9_pts_accumulator rawFmtEx ⟨0, 0, 0⟩ 1536 [okTok]).1,
    (C9_pts_accumulator rawFmtEx ⟨0, 0, 0⟩ 1536 [okTok]).2
      (by simp [audioFrameTime_rawFmtEx]),
    by simp [(C9_pts_accumulator rawFmtEx ⟨0, 0, 0⟩ 1024 [okTok]).1]⟩

/-- C10: the audio sink's Initialize returns false for every format whose
data format is not RAW and for RAW formats whose stream type is neither
AC3 nor E-AC3, in both cases without calling Load; the PCM configuration
branch is never entered for any input. -/
theorem C10_raw_only :
    ∀ (fmt : AEAudioFormat) (loadOk : Bool),
      (initSink fmt loadOk).pcmBranch = false ∧
      (fmt.dataFormat ≠ AEDataFormat.raw → initSink fmt loadOk = ⟨false, false, false⟩) ∧
      (fmt.dataFormat = AEDataFormat.raw →
        fmt.streamType ≠ AEStreamType.ac3 → fmt.streamType ≠ AEStreamType.eac3 →
        initSink fmt loadOk = ⟨false, false, false⟩) := by
  intro fmt loadOk
  obtain ⟨df, st, dur, sr, cc, fs⟩ := fmt
  refine ⟨?_, ?_, ?_⟩
  · cases df <;> cases st <;> simp [initSink]
  · intro hdf
    cases df
    all_goals simp_all [initSink]
  · intro hdf hs1 hs2
    cases df <;> cases st <;> simp_all [initSink]

/-- Witness for C10: a PCM (S16LE) format is rejected outright, and a RAW
format with a TrueHD stream type is rejected, both without entering the
PCM branch or calling Load. -/
theorem C10_raw_only_witness :
    initSink ⟨AEDataFormat.s16le, AEStreamType.mp3, 0, 48000, 2, 4⟩ true =
      ⟨false, false, false⟩ ∧
    initSink ⟨AEDataFormat.raw, AEStreamType.trueHd, 32, 48000, 2, 1⟩ true =
      ⟨false, false, false⟩ :=
  ⟨(C10_raw_only ⟨AEDataFormat.s16le, AEStreamType.mp3, 0, 48000, 2, 4⟩ true).2.1
      (by decide),
    (C10_raw_only ⟨AEDataFormat.raw, AEStreamType.trueHd, 32, 48000, 2, 1⟩ true).2.2
      rfl (by decide) (by decide)⟩

end Starfish
